import Mathlib

/-!
Shallow embedding of the DiscordData module (a Discord bot cog providing a
paginated experiment browser) and verification of its specification.

The embedding follows the Python source:
* `pySlice` models Python's `l[i:j]` slicing (negative indices count from the
  end, endpoints are clamped to the list length);
* `PVState` models the state of `PaginatedView` (backing list, cursor,
  page size, and the `disabled` flags of the Previous/Next buttons), with
  `previous_page` / `next_page` / `update_buttons` as transition functions;
* `Page` and `mkPage` model the `Page` value object with its UNSET sentinel
  (here `Option.none`) and its mutual-exclusivity checks;
* `sorterKey`, `pyKeyLt` and `pySortedDesc` model `ExperimentBrowserView.sorter`
  together with Python's `sorted(..., key=..., reverse=True)`: a stable
  descending sort whose comparison raises `TypeError` (modelled as
  `Except.error`) when an `int` key meets a `str` key;
* `experimentsFind` / `experimentsReply` model the fuzzy lookup path of the
  `experiments` command, parameterised by the external similarity function;
* `experimentDescription` / `treatmentsValue` / `mkExperimentEmbed` model
  `ExperimentEmbed.__init__`;
* `Heap` and `experimentBrowserInitH` model the Python object store well enough
  to state that `sorted` allocates a fresh list and leaves its argument intact.
-/

namespace DiscordData

/-- Python index normalization for slice endpoints: a negative endpoint counts
from the end of the list (clamped below at 0), a nonnegative endpoint is
clamped above at the list length.  This is the adjustment CPython applies to
each endpoint of `l[i:j]`. -/
def pyIndex (n : Nat) (i : Int) : Nat :=
  if i < 0 then ((n : Int) + i).toNat else min i.toNat n

/-- Python slice `l[i:j]`: normalize both endpoints with `pyIndex`, then keep
the elements from position `s` up to (excluding) position `e`; the slice is
empty when `e ≤ s`. -/
def pySlice (l : List α) (i j : Int) : List α :=
  (l.drop (pyIndex l.length i)).take (pyIndex l.length j - pyIndex l.length i)

/-- State of a `PaginatedView`: the backing list `data`, the cursor `index`,
the page size `per_page`, and the `disabled` flags of the Previous and Next
buttons. -/
structure PVState (α : Type) where
  data : List α
  index : Int
  per_page : Int
  prevDisabled : Bool
  nextDisabled : Bool
  deriving DecidableEq

/-- `PaginatedView.__init__(data, starting_index=0, per_page=1)`: the Previous
button is declared with `disabled=True`, the Next button starts enabled. -/
def initView (data : List α) (starting_index : Int) (per_page : Int) : PVState α :=
  ⟨data, starting_index, per_page, true, false⟩

/-- `PaginatedView.get_page_data`: `self.data[self.index : self.index + self.per_page]`. -/
def get_page_data (v : PVState α) : List α :=
  pySlice v.data v.index (v.index + v.per_page)

/-- Ceiling division `(a + b - 1).fdiv b`, which equals `math.ceil(a / b)` for
`b ≥ 1` and integer `a` (the float rounding of Python's true division is exact
at the list lengths involved). -/
def pyCeilDiv (a b : Int) : Int :=
  (a + b - 1).fdiv b

/-- `PaginatedView.pages`: `math.ceil(len(self.data) / self.per_page)`. -/
def pages (v : PVState α) : Int :=
  pyCeilDiv v.data.length v.per_page

/-- `PaginatedView.current_page`: `self.index // self.per_page + 1`, where `//`
is Python floor division (`Int.fdiv`). -/
def current_page (v : PVState α) : Int :=
  v.index.fdiv v.per_page + 1

/-- `PaginatedView.update_buttons`: `previous_page.disabled = index <= 0` and
`next_page.disabled = index >= len(data) - per_page`. -/
def update_buttons (v : PVState α) : PVState α :=
  { v with
    prevDisabled := decide (v.index ≤ 0)
    nextDisabled := decide ((v.data.length : Int) - v.per_page ≤ v.index) }

/-- `PaginatedView.previous_page` (the retreat transition): `index -= per_page`
followed by `update_buttons`. -/
def previous_page (v : PVState α) : PVState α :=
  update_buttons { v with index := v.index - v.per_page }

/-- `PaginatedView.next_page` (the advance transition): `index += per_page`
followed by `update_buttons`. -/
def next_page (v : PVState α) : PVState α :=
  update_buttons { v with index := v.index + v.per_page }

/-- Header string of `ExperimentBrowserView.get_page`:
`f"Page {self.current_page}/{self.pages}"`. -/
def pageTitle (v : PVState α) : String :=
  "Page " ++ toString (current_page v) ++ "/" ++ toString (pages v)

/-- Modelled from the spec's words, for comparison with `get_page_data` (C1):
`currentSlice()` as the spec states it, namely
`items[clamp(cursor, 0, len-1) : clamp(cursor, 0, len-1) + pageSize]`. -/
def specSlice (items : List α) (cursor pageSize : Int) : List α :=
  pySlice items (max 0 (min cursor ((items.length : Int) - 1)))
    (max 0 (min cursor ((items.length : Int) - 1)) + pageSize)

/-- One navigation transition of the controller, as the spec describes them:
both `advance()` and `retreat()` always execute their cursor arithmetic, even
when the corresponding control is disabled. -/
inductive Step : PVState α → PVState α → Prop
  | advance (v : PVState α) : Step v (next_page v)
  | retreat (v : PVState α) : Step v (previous_page v)

/-- One navigation transition in which the retreat control is respected:
`retreat()` fires only while the Previous button is enabled (a disabled Discord
button cannot be clicked). -/
inductive GStep : PVState α → PVState α → Prop
  | advance (v : PVState α) : GStep v (next_page v)
  | retreat (v : PVState α) (h : v.prevDisabled = false) : GStep v (previous_page v)

/-- Opaque stand-in for `discord.Embed` as far as the `Page` object is
concerned; `ExperimentEmbed` instances are built by `mkExperimentEmbed` below. -/
structure Embed where
  title : String
  description : String
  fieldList : List (String × String)
  deriving DecidableEq

/-- Opaque stand-in for `discord.Attachment | discord.File`. -/
structure DFile where
  name : String
  deriving DecidableEq

/-- The `Page` value object after construction.  The Python sentinel `UNSET`
is modelled by `Option.none`: a `none` field was never assigned a real value. -/
structure Page where
  content : Option String
  embeds : Option (List Embed)
  attachments : Option (List DFile)
  deriving DecidableEq

/-- Values stored in the mapping returned by `Page.unpack`. -/
inductive PageVal where
  | str (s : String)
  | embedList (l : List Embed)
  | fileList (l : List DFile)
  deriving DecidableEq

/-- `Page.__init__`: stores `content`, `embeds`, `attachments`, then desugars
the singular `embed` / `attachment` arguments into one-element lists, raising
`ValueError` if the corresponding plural argument was also provided.  In the
argument types, `none` means the Python default (`UNSET` for `content`,
`embeds`, `attachments`; `None` for `embed` and `attachment`). -/
def mkPage (content : Option String) (embed : Option Embed)
    (embeds : Option (List Embed)) (attachment : Option DFile)
    (attachments : Option (List DFile)) : Except String Page :=
  match embed, embeds with
  | some _, some _ => .error "Cannot set both `embed` and `embeds`."
  | e?, embeds₀ =>
    let embeds₁ := match e? with
      | some e => some [e]
      | none => embeds₀
    match attachment, attachments with
    | some _, some _ => .error "Cannot set both `attachment` and `attachments`."
    | a?, attachments₀ =>
      let attachments₁ := match a? with
        | some a => some [a]
        | none => attachments₀
      .ok ⟨content, embeds₁, attachments₁⟩

/-- `Page.unpack`: `{k: v for k, v in self.__dict__.items() if v is not UNSET}`.
The instance dictionary holds `content`, `embeds`, `attachments` in insertion
order; entries whose value is the `UNSET` sentinel (`none`) are omitted. -/
def Page.unpack (p : Page) : List (String × PageVal) :=
  (match p.content with
    | some s => [("content", PageVal.str s)]
    | none => []) ++
  (match p.embeds with
    | some l => [("embeds", PageVal.embedList l)]
    | none => []) ++
  (match p.attachments with
    | some l => [("attachments", PageVal.fileList l)]
    | none => [])

/-- The `Treatment` TypedDict. -/
structure Treatment where
  id : Int
  label : String
  deriving DecidableEq

/-- The `Experiment` TypedDict (`kind` is the literal `"user"` or `"guild"`,
kept as a plain string). -/
structure Experiment where
  kind : String
  id : String
  label : String
  file : String
  treatments : List Treatment
  deriving DecidableEq

/-- The sort key produced by `ExperimentBrowserView.sorter`: a Python `int`
when the first seven characters of the id, hyphens removed, are all digits, and
otherwise that very (hyphen-stripped) string. -/
inductive PyKey where
  | num (n : Nat)
  | str (s : String)
  deriving DecidableEq

/-- Python `int(s)` on a nonempty all-digit string. -/
def digitsToNat (cs : List Char) : Nat :=
  cs.foldl (fun n c => n * 10 + (c.toNat - '0'.toNat)) 0

/-- `ExperimentBrowserView.sorter`: take `experiment["id"][:len("yyyy-mm")]`
(the first seven characters), remove the hyphens, and return `int(key)` when
`key.isdigit()` (nonempty and all digits) and the string `key` otherwise. -/
def sorterKey (e : Experiment) : PyKey :=
  let idPrefixChars := e.id.toList.take 7
  let key := (idPrefixChars.filter (fun c => c ≠ '-')).asString
  if key ≠ "" ∧ key.toList.all Char.isDigit then
    PyKey.num (digitsToNat key.toList)
  else
    PyKey.str key

/-- Python's `<` on sort keys: defined between two `int`s and between two
`str`s (code-point lexicographic order), and raising `TypeError` — modelled as
`Except.error ()` — between an `int` and a `str`. -/
def pyKeyLt : PyKey → PyKey → Except Unit Bool
  | PyKey.num a, PyKey.num b => .ok (decide (a < b))
  | PyKey.str a, PyKey.str b => .ok (decide (a < b))
  | _, _ => .error ()

/-- Insert `x` into a list already sorted in descending key order, placing it
before the first element whose key is strictly below `keyOf x` (so that
elements with equal keys keep their original relative order).  Any comparison
between an `int` key and a `str` key propagates `TypeError`. -/
def insertDesc (keyOf : α → PyKey) (x : α) : List α → Except Unit (List α)
  | [] => .ok [x]
  | y :: ys => do
    let lt ← pyKeyLt (keyOf x) (keyOf y)
    if lt then
      let r ← insertDesc keyOf x ys
      pure (y :: r)
    else
      pure (x :: y :: ys)

/-- Python `sorted(l, key=keyOf, reverse=True)`: a stable descending sort.
Like CPython's sort it raises `TypeError` exactly when the key sequence mixes
`int` and `str` keys (any such list has an `int` key and a `str` key that must
be compared), and on homogeneous key sequences it agrees with every stable
descending sort. -/
def pySortedDesc (keyOf : α → PyKey) : List α → Except Unit (List α)
  | [] => .ok []
  | x :: xs => do
    let r ← pySortedDesc keyOf xs
    insertDesc keyOf x r

/-- `ExperimentBrowserView.__init__(data)` at the value level:
`super().__init__(sorted(data, key=self.sorter, reverse=True), per_page=20)`.
The sort raises `TypeError` (here `Except.error`) on key sequences mixing
`int` and `str`. -/
def experimentBrowserInit (data : List Experiment) : Except Unit (PVState Experiment) :=
  (pySortedDesc sorterKey data).map (fun s => initView s 0 20)

/-- Python `str.title()` restricted to ASCII: an alphabetic character is
uppercased when the previous character is not alphabetic and lowercased
otherwise; other characters are kept and reset the word boundary. -/
def pyTitleAux : Bool → List Char → List Char
  | _, [] => []
  | prevAlpha, c :: cs =>
    (if c.isAlpha then (if prevAlpha then c.toLower else c.toUpper) else c)
      :: pyTitleAux c.isAlpha cs

/-- Python `str.title()` (ASCII fragment, which covers `"user"` / `"guild"`). -/
def pyTitle (s : String) : String :=
  (pyTitleAux false s.toList).asString

/-- The description built by `ExperimentEmbed.__init__`:
`"\n".join(s for s in (ID line, Kind line, File line) if s)` — each generated
line is kept only if it is a nonempty string. -/
def experimentDescription (e : Experiment) : String :=
  String.intercalate "\n"
    (List.filter (fun s => s ≠ "")
      ["ID: `" ++ e.id ++ "`",
       "Kind: " ++ pyTitle e.kind,
       "File: `" ++ e.file ++ "`"])

/-- The value of the `Treatments` field added by `ExperimentEmbed.__init__`:
`- Not Eligible`, `- Control Bucket`, then `- Treatment <id>: <label>` for each
actual treatment. -/
def treatmentsValue (e : Experiment) : String :=
  String.intercalate "\n"
    ((["Not Eligible", "Control Bucket"] ++
        e.treatments.map (fun t => "Treatment " ++ toString t.id ++ ": " ++ t.label)).map
      (fun t => "- " ++ t))

/-- `ExperimentEmbed(experiment)`: title is the label, description the joined
ID/Kind/File lines, plus the single `Treatments` field. -/
def mkExperimentEmbed (e : Experiment) : Embed :=
  ⟨e.label, experimentDescription e, [("Treatments", treatmentsValue e)]⟩

/-- The match test of the lookup loop in `DiscordData.experiments`, for one
record: `fuzz.partial_ratio(exp["label"].lower(), experiment) > 85` or, failing
that, `fuzz.partial_ratio(exp["id"], experiment) > 85`, where `experiment` is
the already-lowercased query. -/
def lookupHit (sim : String → String → Nat) (q : String) (e : Experiment) : Bool :=
  decide (85 < sim e.label.toLower q.toLower) || decide (85 < sim e.id q.toLower)

/-- The lookup loop of `DiscordData.experiments`: scan `build["experiments"]`
in their given order and stop at the first record passing `lookupHit`.  The
similarity function `sim` models `fuzz.partial_ratio` (an external scoring
function with range 0..100) and is kept abstract. -/
def experimentsFind (sim : String → String → Nat) (exps : List Experiment)
    (q : String) : Option Experiment :=
  exps.find? (lookupHit sim q)

/-- Replies produced by the `experiments` command when a query was given. -/
inductive CommandReply where
  | detailEmbed (e : Embed)
  | text (s : String)
  deriving DecidableEq

/-- The reply of `DiscordData.experiments` for a non-empty query: the
`ExperimentEmbed` of the first fuzzy match, or the plain message
`"No such experiment found."` (no view / controls attached) when the loop
falls through. -/
def experimentsReply (sim : String → String → Nat) (exps : List Experiment)
    (q : String) : CommandReply :=
  match experimentsFind sim exps q with
  | some e => .detailEmbed (mkExperimentEmbed e)
  | none => .text "No such experiment found."

/-- A store of Python list objects, used to express heap effects: an address
is an index into `cells`. -/
structure Heap where
  cells : List (List Experiment)
  deriving DecidableEq

/-- Dereference a list object. -/
def Heap.get (h : Heap) (r : Nat) : Option (List Experiment) :=
  h.cells[r]?

/-- Allocate a fresh list object, returning the new heap and its address. -/
def Heap.alloc (h : Heap) (v : List Experiment) : Heap × Nat :=
  (⟨h.cells ++ [v]⟩, h.cells.length)

/-- `ExperimentBrowserView.__init__(data)` at the heap level: the builtin
`sorted` reads the caller's list object at `r`, allocates a fresh list holding
the sorted elements and returns its address; the caller's object is never
written.  Returns the new heap and the address the view stores as `self.data`. -/
def experimentBrowserInitH (h : Heap) (r : Nat) : Except Unit (Heap × Nat) :=
  match h.get r with
  | none => .error ()
  | some l =>
    match pySortedDesc sorterKey l with
    | .error e => .error e
    | .ok s => .ok (h.alloc s)

/-- Concrete experiment records used in several of the checks below. -/
def exp2024 : Experiment :=
  ⟨"user", "2024-02-x", "Experiment A", "f.js", []⟩

/-- Second concrete record (older period). -/
def exp2023 : Experiment :=
  ⟨"user", "2023-11-y", "Experiment B", "f.js", []⟩

/-- Record whose id does not follow the `yyyy-mm` shape, giving a `str` key. -/
def expBad : Experiment :=
  ⟨"user", "bad-id", "Experiment C", "f.js", []⟩

/-- For nonnegative endpoints a Python slice is a drop followed by a take of
the (clamped) width: no wrap-around occurs. -/
theorem pySlice_of_nonneg (l : List α) (i j : Int) (hi : 0 ≤ i) (hj : i ≤ j) :
    pySlice l i j = (l.drop i.toNat).take (j.toNat - i.toNat) := by
  have hi' : ¬ i < 0 := by omega
  have hj' : ¬ j < 0 := by omega
  unfold pySlice pyIndex
  simp only [if_neg hi', if_neg hj']
  rcases le_or_lt l.length i.toNat with hcn | hcn
  · rw [min_eq_right hcn, List.drop_length, List.take_nil,
      List.drop_eq_nil_of_le hcn, List.take_nil]
  · rw [min_eq_left (le_of_lt hcn)]
    rw [List.take_eq_take]
    simp only [List.length_drop]
    omega

/-- A Python slice whose start lies at or beyond the end of the list is empty. -/
theorem pySlice_eq_nil_of_len_le (l : List α) (i j : Int)
    (h : (l.length : Int) ≤ i) : pySlice l i j = [] := by
  have hi' : ¬ i < 0 := by omega
  unfold pySlice pyIndex
  simp only [if_neg hi']
  have hmin : min i.toNat l.length = l.length := by omega
  rw [hmin, List.drop_length, List.take_nil]

/-- When `current_page` equals `pages` on a nonempty dataset, the cursor is at
most one page below the end, so one more page step moves it past the end. -/
theorem last_page_cursor_high (n p i : Int) (hp : 1 ≤ p) (_hn : 1 ≤ n)
    (h : i.fdiv p + 1 = pyCeilDiv n p) : n ≤ i + p := by
  have hp0 : (0 : Int) ≤ p := by omega
  unfold pyCeilDiv at h
  rw [Int.fdiv_eq_ediv _ hp0, Int.fdiv_eq_ediv _ hp0] at h
  have h2 : n + p - 1 < ((n + p - 1) / p + 1) * p :=
    Int.lt_ediv_add_one_mul_self _ (by omega)
  have h3 : i / p * p ≤ i := Int.ediv_mul_le _ (by omega)
  rw [← h] at h2
  have h4 : (i / p + 1 + 1) * p = i / p * p + 2 * p := by ring
  rw [h4] at h2
  linarith

/-- First-match characterization of `List.find?`. -/
theorem find?_first {p : α → Bool} :
    ∀ {l : List α} {a : α}, l.find? p = some a →
      p a = true ∧ ∃ pre post, l = pre ++ a :: post ∧ ∀ x ∈ pre, p x = false := by
  intro l
  induction l with
  | nil => intro a h; simp [List.find?] at h
  | cons x xs ih =>
    intro a h
    by_cases hx : p x = true
    · rw [List.find?_cons_of_pos _ hx] at h
      cases h
      exact ⟨hx, [], xs, rfl, by simp⟩
    · have hx' : p x = false := by
        cases hpx : p x
        · rfl
        · exact absurd hpx hx
      rw [List.find?_cons_of_neg _ hx] at h
      obtain ⟨hpa, pre, post, heq, hall⟩ := ih h
      refine ⟨hpa, x :: pre, post, by rw [heq]; rfl, ?_⟩
      intro y hy
      rcases List.mem_cons.mp hy with hy | hy
      · rw [hy]; exact hx'
      · exact hall y hy

/-- States reachable from the initial state (cursor 0) when the retreat
control is respected keep a nonnegative, page-aligned cursor, and the
Previous-button flag always mirrors `index <= 0`. -/
theorem guarded_reach_invariant (data : List α) (p : Int) (hp : 1 ≤ p)
    (s : PVState α) (h : Relation.ReflTransGen GStep (initView data 0 p) s) :
    0 ≤ s.index ∧ p ∣ s.index ∧ s.per_page = p ∧
      s.prevDisabled = decide (s.index ≤ 0) := by
  induction h with
  | refl => exact ⟨le_refl 0, dvd_zero p, rfl, rfl⟩
  | @tail b c hsteps hstep ih =>
    obtain ⟨h0, hdvd, hpp, hflag⟩ := ih
    cases hstep with
    | advance =>
      refine ⟨?_, ?_, ?_, ?_⟩
      · simp only [next_page, update_buttons]
        omega
      · simp only [next_page, update_buttons]
        rw [hpp]
        exact dvd_add hdvd (dvd_refl p)
      · simp only [next_page, update_buttons]
        exact hpp
      · simp only [next_page, update_buttons]
    | retreat hv =>
      rw [hflag] at hv
      have hpos : 0 < b.index := by
        by_contra hle
        rw [decide_eq_false_iff_not] at hv
        exact hv (by omega)
      have hge : p ≤ b.index := by
        rw [← hpp] at hdvd ⊢
        exact Int.le_of_dvd hpos hdvd
      refine ⟨?_, ?_, ?_, ?_⟩
      · simp only [previous_page, update_buttons]
        omega
      · simp only [previous_page, update_buttons]
        rw [hpp]
        exact dvd_sub hdvd (dvd_refl p)
      · simp only [previous_page, update_buttons]
        exact hpp
      · simp only [previous_page, update_buttons]

/-- C1 (counterexample): with one item, page size 1 and one advance from the
initial state, the cursor sits at 1 (one past the end); `get_page_data`
returns the empty list while the spec's clamped slice
`items[clamp(cursor, 0, len-1) : clamp(...) + pageSize]` would return the
last item, so the claimed equation fails at an out-of-bounds cursor reached
by navigation. -/
theorem get_page_data_deviates_from_clamped_slice :
    get_page_data (next_page (initView [(0 : Nat)] 0 1)) ≠
      specSlice (next_page (initView [(0 : Nat)] 0 1)).data
        (next_page (initView [(0 : Nat)] 0 1)).index
        (next_page (initView [(0 : Nat)] 0 1)).per_page := by
  decide

/-- C1 (amended): for a nonnegative cursor, `get_page_data` is the unclamped
Python slice `items[cursor : cursor + pageSize]`, i.e. drop `cursor` then take
`pageSize`; its length is `min(pageSize, len - cursor)` (truncated at 0), a
cursor at or beyond the end yields the empty list, and an empty dataset always
yields the empty list. -/
theorem get_page_data_is_python_slice (v : PVState α)
    (hc : 0 ≤ v.index) (hp : 0 ≤ v.per_page) :
    get_page_data v = (v.data.drop v.index.toNat).take v.per_page.toNat ∧
    (get_page_data v).length =
      min v.per_page.toNat (v.data.length - v.index.toNat) ∧
    ((v.data.length : Int) ≤ v.index → get_page_data v = []) ∧
    (v.data = [] → get_page_data v = []) := by
  have hmain : get_page_data v =
      (v.data.drop v.index.toNat).take v.per_page.toNat := by
    unfold get_page_data
    rw [pySlice_of_nonneg _ _ _ hc (by omega)]
    congr 1
    omega
  refine ⟨hmain, ?_, ?_, ?_⟩
  · rw [hmain]
    simp [List.length_take, List.length_drop]
  · intro hlen
    rw [hmain, List.drop_eq_nil_of_le (by omega), List.take_nil]
  · intro hnil
    rw [hmain, hnil]
    simp

/-- Witness for C1 (amended) at `items = [0, 1, 2]`, cursor 1, page size 2. -/
theorem get_page_data_is_python_slice_witness :
    get_page_data (initView [(0 : Nat), 1, 2] 1 2) =
      ([(0 : Nat), 1, 2].drop (1 : Int).toNat).take (2 : Int).toNat ∧
    (get_page_data (initView [(0 : Nat), 1, 2] 1 2)).length =
      min (2 : Int).toNat ([(0 : Nat), 1, 2].length - (1 : Int).toNat) ∧
    (([(0 : Nat), 1, 2].length : Int) ≤ 1 →
      get_page_data (initView [(0 : Nat), 1, 2] 1 2) = []) ∧
    ([(0 : Nat), 1, 2] = [] → get_page_data (initView [(0 : Nat), 1, 2] 1 2) = []) :=
  get_page_data_is_python_slice (initView [(0 : Nat), 1, 2] 1 2)
    (by decide) (by decide)

/-- C4 (counterexample): a retreat from the initial state (first page, cursor
0, page size 1, two items) is a navigation transition; it leaves the retreat
control disabled, but `current_page` then reports 0, not a value of at
least 1. -/
theorem retreat_from_first_page_reports_page_zero :
    Step (initView [(0 : Nat), 1] 0 1)
      (previous_page (initView [(0 : Nat), 1] 0 1)) ∧
    (previous_page (initView [(0 : Nat), 1] 0 1)).prevDisabled = true ∧
    current_page (previous_page (initView [(0 : Nat), 1] 0 1)) = 0 :=
  ⟨Step.retreat _, by decide, by decide⟩

/-- C4 (amended): in every state reachable from the initial state (cursor 0)
by advance transitions and by retreat transitions taken only while the retreat
control is enabled, `current_page` reports at least 1; a retreat transition
executed on the first page (cursor at or below 0) still leaves the retreat
control disabled — but `current_page` can then report less than 1, as the
counterexample shows. -/
theorem current_page_ge_one_guarded (data : List α) (p : Int) (hp : 1 ≤ p)
    (s : PVState α) (h : Relation.ReflTransGen GStep (initView data 0 p) s) :
    1 ≤ current_page s ∧
      (s.index ≤ 0 → (previous_page s).prevDisabled = true) := by
  obtain ⟨h0, _, hpp, _⟩ := guarded_reach_invariant data p hp s h
  constructor
  · have hdiv : (0 : Int) ≤ s.index.fdiv s.per_page := by
      rw [Int.fdiv_eq_ediv _ (by omega : (0 : Int) ≤ s.per_page)]
      exact Int.ediv_nonneg h0 (by omega)
    unfold current_page
    omega
  · intro hle
    have hneg : s.index - s.per_page ≤ 0 := by omega
    simp only [previous_page, update_buttons]
    rw [decide_eq_true_iff]
    exact hneg

/-- Witness for C4 (amended) at the initial state itself. -/
theorem current_page_ge_one_guarded_witness :
    1 ≤ current_page (initView [(0 : Nat), 1] 0 1) ∧
      ((initView [(0 : Nat), 1] 0 1).index ≤ 0 →
        (previous_page (initView [(0 : Nat), 1] 0 1)).prevDisabled = true) :=
  current_page_ge_one_guarded [0, 1] 1 (by decide) _ Relation.ReflTransGen.refl

/-- C5: after an advance or a retreat transition, the recomputed button flags
satisfy: the retreat control is disabled exactly when the cursor is at most 0,
and the advance control is disabled exactly when the cursor is at least
`len(items) - pageSize`. -/
theorem buttons_reflect_cursor_after_transition (v : PVState α) :
    ((next_page v).prevDisabled = true ↔ (next_page v).index ≤ 0) ∧
    ((next_page v).nextDisabled = true ↔
      ((next_page v).data.length : Int) - (next_page v).per_page ≤
        (next_page v).index) ∧
    ((previous_page v).prevDisabled = true ↔ (previous_page v).index ≤ 0) ∧
    ((previous_page v).nextDisabled = true ↔
      ((previous_page v).data.length : Int) - (previous_page v).per_page ≤
        (previous_page v).index) := by
  simp [next_page, previous_page, update_buttons]

/-- C7: on a nonempty dataset, advancing from the last page leaves the advance
control disabled and yields the empty (clamped) slice, and a further advance
yields the same slice — advancing is idempotent at the upper boundary. -/
theorem advance_idempotent_at_upper_boundary (v : PVState α)
    (hp : 1 ≤ v.per_page) (hne : v.data ≠ [])
    (hlast : current_page v = pages v) :
    (next_page v).nextDisabled = true ∧
    get_page_data (next_page v) = [] ∧
    get_page_data (next_page (next_page v)) = get_page_data (next_page v) := by
  have hn : 1 ≤ (v.data.length : Int) := by
    have := List.length_pos.mpr hne
    omega
  have hover : (v.data.length : Int) ≤ v.index + v.per_page :=
    last_page_cursor_high _ _ _ hp hn hlast
  refine ⟨?_, ?_, ?_⟩
  · simp only [next_page, update_buttons, decide_eq_true_eq]
    omega
  · simp only [get_page_data, next_page, update_buttons]
    exact pySlice_eq_nil_of_len_le _ _ _ hover
  · simp only [get_page_data, next_page, update_buttons]
    rw [pySlice_eq_nil_of_len_le _ _ _ hover,
      pySlice_eq_nil_of_len_le _ _ _ (by omega)]

/-- Witness for C7 on a one-item dataset with page size 1 (cursor 0 is the
last page there). -/
theorem advance_idempotent_at_upper_boundary_witness :
    (next_page (initView [(0 : Nat)] 0 1)).nextDisabled = true ∧
    get_page_data (next_page (initView [(0 : Nat)] 0 1)) = [] ∧
    get_page_data (next_page (next_page (initView [(0 : Nat)] 0 1))) =
      get_page_data (next_page (initView [(0 : Nat)] 0 1)) :=
  advance_idempotent_at_upper_boundary (initView [(0 : Nat)] 0 1)
    (by decide) (by decide) (by decide)

/-- C9: on an empty dataset (any page size of at least 1, cursor 0), `pages`
reports 0 while `current_page` reports 1, so the page header reads
`Page 1/0` — the reported current page exceeds the reported page count. -/
theorem empty_dataset_reports_page_one_of_zero (p : Int) (hp : 1 ≤ p) :
    pages (initView ([] : List Experiment) 0 p) = 0 ∧
    current_page (initView ([] : List Experiment) 0 p) = 1 ∧
    pageTitle (initView ([] : List Experiment) 0 p) = "Page 1/0" := by
  have hp0 : (0 : Int) ≤ p := by omega
  have hpages : pages (initView ([] : List Experiment) 0 p) = 0 := by
    unfold pages pyCeilDiv initView
    simp only [List.length_nil, Nat.cast_zero, zero_add]
    rw [Int.fdiv_eq_ediv _ hp0]
    exact Int.ediv_eq_zero_of_lt (by omega) (by omega)
  have hcur : current_page (initView ([] : List Experiment) 0 p) = 1 := by
    unfold current_page initView
    rw [Int.fdiv_eq_ediv _ hp0]
    simp
  refine ⟨hpages, hcur, ?_⟩
  unfold pageTitle
  rw [hpages, hcur]
  rfl

/-- Witness for C9 at the browser's fixed page size 20. -/
theorem empty_dataset_reports_page_one_of_zero_witness :
    pages (initView ([] : List Experiment) 0 20) = 0 ∧
    current_page (initView ([] : List Experiment) 0 20) = 1 ∧
    pageTitle (initView ([] : List Experiment) 0 20) = "Page 1/0" :=
  empty_dataset_reports_page_one_of_zero 20 (by decide)

/-- C2 (counterexample): constructing the browser over records with ids
`2024-02-x`, `2023-11-y` and `bad-id` does not succeed: the sort keys mix an
`int` (`202402`) with a `str` (`"badid"`), and Python 3 raises `TypeError` on
the first cross-type key comparison instead of ranking numeric keys above
non-numeric ones. -/
theorem browser_init_mixed_keys_raises :
    experimentBrowserInit [exp2024, exp2023, expBad] = Except.error () := rfl

/-- C2 (amended): the browser sorts descending by the stated key — the
all-numeric dataset with ids `2024-02-x`, `2023-11-y` is ordered
`2024-02-x, 2023-11-y` from either input order — but a dataset mixing numeric
and non-numeric keys, such as the one that also contains `bad-id`, raises
`TypeError` at construction instead of being ordered. -/
theorem browser_sort_descending_and_mixed_key_error :
    (experimentBrowserInit [exp2023, exp2024]).map PVState.data =
      Except.ok [exp2024, exp2023] ∧
    (experimentBrowserInit [exp2024, exp2023]).map PVState.data =
      Except.ok [exp2024, exp2023] ∧
    experimentBrowserInit [exp2024, exp2023, expBad] = Except.error () :=
  ⟨rfl, rfl, rfl⟩

/-- C3 (counterexample): a similarity score of exactly 85 does not clear the
threshold: the code tests `score > 85`, so with a similarity function that is
constantly 85 the lookup replies `No such experiment found.` instead of
returning the record's detail reply. -/
theorem lookup_score_85_rejected :
    (fun _ _ => 85 : String → String → Nat)
        exp2024.label.toLower "experiment a".toLower = 85 ∧
    experimentsReply (fun _ _ => 85) [exp2024] "experiment a" =
      CommandReply.text "No such experiment found." :=
  ⟨rfl, rfl⟩

/-- C3 (amended): the lookup scans the dataset in its natural order and
returns the detail reply of the first record whose similarity score strictly
exceeds 85 against the lowercased label or against the raw id (a score of
exactly 85 does not count); when no record clears the threshold, the plain
`No such experiment found.` reply is sent. -/
theorem lookup_first_match_strict_threshold (sim : String → String → Nat)
    (exps : List Experiment) (q : String) :
    (∀ e, experimentsFind sim exps q = some e →
      (85 < sim e.label.toLower q.toLower ∨ 85 < sim e.id q.toLower) ∧
      ∃ pre post, exps = pre ++ e :: post ∧
        ∀ e' ∈ pre,
          ¬ (85 < sim e'.label.toLower q.toLower ∨ 85 < sim e'.id q.toLower)) ∧
    (experimentsFind sim exps q = none ↔
      ∀ e ∈ exps,
        ¬ (85 < sim e.label.toLower q.toLower ∨ 85 < sim e.id q.toLower)) ∧
    (∀ e, experimentsFind sim exps q = some e →
      experimentsReply sim exps q =
        CommandReply.detailEmbed (mkExperimentEmbed e)) ∧
    (experimentsFind sim exps q = none →
      experimentsReply sim exps q =
        CommandReply.text "No such experiment found.") := by
  have hb : ∀ e, lookupHit sim q e = true ↔
      (85 < sim e.label.toLower q.toLower ∨ 85 < sim e.id q.toLower) := by
    intro e
    simp [lookupHit]
  have hb' : ∀ e, lookupHit sim q e = false ↔
      ¬ (85 < sim e.label.toLower q.toLower ∨ 85 < sim e.id q.toLower) := by
    intro e
    rw [← hb e]
    cases lookupHit sim q e <;> simp
  refine ⟨?_, ?_, ?_, ?_⟩
  · intro e he
    obtain ⟨hpa, pre, post, heq, hall⟩ := find?_first he
    exact ⟨(hb e).mp hpa, pre, post, heq,
      fun e' he' => (hb' e').mp (hall e' he')⟩
  · unfold experimentsFind
    rw [List.find?_eq_none]
    constructor
    · intro h e he
      exact fun hc => h e he ((hb e).mpr hc)
    · intro h e he
      exact fun hc => h e he ((hb e).mp hc)
  · intro e he
    unfold experimentsReply
    rw [he]
  · intro he
    unfold experimentsReply
    rw [he]

/-- Witness for C3 (amended): on an empty dataset the lookup falls through to
the not-found reply. -/
theorem lookup_first_match_strict_threshold_witness :
    experimentsReply (fun _ _ => 100) [] "q" =
      CommandReply.text "No such experiment found." :=
  (lookup_first_match_strict_threshold (fun _ _ => 100) [] "q").2.2.2 rfl

/-- C6: constructing a `Page` with both the singular `attachment` and the
plural `attachments` raises the construction-conflict error; with neither
provided, `unpack()` omits the `attachments` key entirely; and the same
mutual exclusivity holds for `embed` / `embeds`. -/
theorem page_conflicting_fields (c : Option String) (e? : Option Embed)
    (es? : Option (List Embed)) (a : DFile) (fs : List DFile)
    (e : Embed) (es : List Embed) (a? : Option DFile)
    (fs? : Option (List DFile)) :
    (∃ msg, mkPage c e? es? (some a) (some fs) = Except.error msg) ∧
    (∀ pg, mkPage c e? es? none none = Except.ok pg →
      ∀ v, ("attachments", v) ∉ pg.unpack) ∧
    (∃ msg, mkPage c (some e) (some es) a? fs? = Except.error msg) := by
  refine ⟨?_, ?_, ?_⟩
  · cases e? <;> cases es? <;> exact ⟨_, rfl⟩
  · intro pg hpg v
    cases e? with
    | some e₀ =>
      cases es? with
      | some es₀ => exact absurd hpg (by simp [mkPage])
      | none =>
        simp only [mkPage, Except.ok.injEq] at hpg
        subst hpg
        cases c <;> simp [Page.unpack]
    | none =>
      cases es? with
      | some es₀ =>
        simp only [mkPage, Except.ok.injEq] at hpg
        subst hpg
        cases c <;> simp [Page.unpack]
      | none =>
        simp only [mkPage, Except.ok.injEq] at hpg
        subst hpg
        cases c <;> simp [Page.unpack]
  · cases a? <;> cases fs? <;> exact ⟨_, rfl⟩

/-- Witness for C6: the attachment/attachments conflict at concrete
arguments. -/
theorem page_conflicting_fields_witness :
    ∃ msg, mkPage none none none (some ⟨"a.png"⟩) (some []) =
      Except.error msg :=
  (page_conflicting_fields none none none ⟨"a.png"⟩ [] ⟨"t", "d", []⟩ []
    none none).1

/-- C8 (code evaluation at the failing input): for a record whose `file` field
is the empty string, the rendered description still contains the File line
(as `File: ` followed by empty backticks) — the `if s` filter never drops it
because the generated line is never the empty string — while the treatments
list does start with the two synthetic entries. -/
theorem experiment_embed_file_line_not_omitted :
    experimentDescription ⟨"user", "2024-02-x", "Label", "", []⟩ =
      "ID: `2024-02-x`\nKind: User\nFile: ``" ∧
    treatmentsValue ⟨"user", "2024-02-x", "Label", "", []⟩ =
      "- Not Eligible\n- Control Bucket" ∧
    mkExperimentEmbed ⟨"user", "2024-02-x", "Label", "", []⟩ =
      ⟨"Label", "ID: `2024-02-x`\nKind: User\nFile: ``",
        [("Treatments", "- Not Eligible\n- Control Bucket")]⟩ :=
  ⟨rfl, rfl, rfl⟩

/-- C10: when browser construction succeeds, the heap cell holding the
caller's experiments list is unchanged (same elements, same order) — the view
sorts a freshly allocated copy, whose address differs from the caller's. -/
theorem browser_init_preserves_caller_list (h : Heap) (r : Nat) (h' : Heap)
    (r' : Nat) (hok : experimentBrowserInitH h r = Except.ok (h', r')) :
    h'.get r = h.get r ∧ r' ≠ r := by
  unfold experimentBrowserInitH at hok
  split at hok
  · exact absurd hok (by simp)
  · rename_i l hget
    split at hok
    · exact absurd hok (by simp)
    · rename_i s hsort
      simp only [Except.ok.injEq] at hok
      have hr : r < h.cells.length := by
        unfold Heap.get at hget
        obtain ⟨hlt, -⟩ := List.getElem?_eq_some_iff.mp hget
        exact hlt
      unfold Heap.alloc at hok
      injection hok with hh hr'
      subst hh
      subst hr'
      constructor
      · unfold Heap.get
        exact List.getElem?_append_left hr
      · omega

/-- Witness for C10 on a one-cell heap holding two records. -/
theorem browser_init_preserves_caller_list_witness :
    Heap.get ⟨[[exp2023, exp2024], [exp2024, exp2023]]⟩ 0 =
      Heap.get ⟨[[exp2023, exp2024]]⟩ 0 ∧ (1 : Nat) ≠ 0 :=
  browser_init_preserves_caller_list ⟨[[exp2023, exp2024]]⟩ 0
    ⟨[[exp2023, exp2024], [exp2024, exp2023]]⟩ 1 rfl

end DiscordData
